import Mathlib

/-!
Verification of the collaborative song-queue Discord bot.

Each definition is a shallow embedding of one function of the repository:

* `Song`, `SongQueue.*`           — `SongQueue.js` (the collaborative queue)
* `AuthManager.*`                 — `AuthManager.js` (token-refresh wrapper)
* `QueueManager.*`                — `QueueManager.js` (the operation queue)
* `PlaybackManager.*`             — `QueueDisplay.js` (the playback watcher)
* `PlaylistManager.*`             — `spotifyAuth.js` (the playlist reconciler)

Opaque values of the JavaScript source (titles, urls, user ids, timestamps,
track ids) are modelled as `Nat`; JavaScript `Set`s of user ids are modelled
as duplicate-free lists; promise rejection / `throw` is modelled with
`Except`.
-/

/-! ## Collaborative queue (`SongQueue.js`)

`class Song` — `constructor(title, url, addedBy)` sets `votes = 1`,
`voters = new Set([addedBy])`, `addedAt = Date.now()`.  The timestamp is
passed explicitly (`now`). -/

structure Song where
  title : Nat
  url : Nat
  addedBy : Nat
  votes : Nat
  voters : List Nat
  addedAt : Nat
deriving DecidableEq

def Song.new (title url addedBy now : Nat) : Song :=
  { title := title, url := url, addedBy := addedBy,
    votes := 1, voters := [addedBy], addedAt := now }

/-- The ordering used by `SongQueue._sortQueue`: the comparator
`(a, b) => b.votes !== a.votes ? b.votes - a.votes : a.addedAt - b.addedAt`
puts `a` no later than `b` exactly when `a` has strictly more votes, or the
same number of votes and an earlier-or-equal `addedAt`. -/
def songLE (a b : Song) : Prop :=
  b.votes < a.votes ∨ (a.votes = b.votes ∧ a.addedAt ≤ b.addedAt)

instance : DecidableRel songLE := by
  intro a b
  unfold songLE
  infer_instance

instance : IsTotal Song songLE := by
  constructor
  intro a b
  unfold songLE
  omega

instance : IsTrans Song songLE := by
  constructor
  intro a b c hab hbc
  unfold songLE at *
  omega

/-- `SongQueue._sortQueue()` — a stable sort of `this.songs` by the
comparator above (`Array.prototype.sort` is stable). -/
def SongQueue.sortQueue (songs : List Song) : List Song :=
  List.insertionSort songLE songs

/-- `SongQueue.addSong(title, url, userId)` — pushes a fresh `Song`
(implicit self-vote), re-sorts, and returns the song. -/
def SongQueue.addSong (songs : List Song) (title url userId now : Nat) :
    List Song × Song :=
  let song := Song.new title url userId now
  (SongQueue.sortQueue (songs ++ [song]), song)

/-- `SongQueue.vote(songIndex, userId)` — throws `'Invalid song index'`
when `songIndex < 0 || songIndex >= this.songs.length`; returns `false`
when the user already voted; otherwise increments the song's votes, adds
the voter, re-sorts, and returns `true`.  The thrown error is modelled as
`Except.error`; the (possibly updated) queue is returned alongside the
boolean. -/
def SongQueue.vote (songs : List Song) (songIndex : Int) (userId : Nat) :
    Except String (List Song × Bool) :=
  if h : songIndex < 0 ∨ (songs.length : Int) ≤ songIndex then
    Except.error "Invalid song index"
  else
    have hi : songIndex.toNat < songs.length := by omega
    let song := songs.get ⟨songIndex.toNat, hi⟩
    if userId ∈ song.voters then
      Except.ok (songs, false)
    else
      Except.ok (SongQueue.sortQueue (songs.set songIndex.toNat
        { song with votes := song.votes + 1,
                    voters := song.voters ++ [userId] }), true)

/-- `SongQueue.removeFirst()` — pops and returns the head, or `null`. -/
def SongQueue.removeFirst (songs : List Song) : List Song × Option Song :=
  match songs with
  | [] => ([], none)
  | s :: rest => (rest, some s)

/-- One user-level operation on the collaborative queue. -/
inductive QueueOp where
  | add (title url userId now : Nat)
  | vote (songIndex : Int) (userId : Nat)
deriving DecidableEq

/-- Applying one operation to the queue state.  A thrown `vote` error
leaves the queue unchanged (the throw happens before any mutation). -/
def applyOp (songs : List Song) : QueueOp → List Song
  | QueueOp.add t u uid now => (SongQueue.addSong songs t u uid now).1
  | QueueOp.vote i uid =>
    match SongQueue.vote songs i uid with
    | Except.ok r => r.1
    | Except.error _ => songs

/-- The queue reached from empty by a sequence of operations. -/
def applyOps (ops : List QueueOp) : List Song :=
  ops.foldl applyOp []

/-! ### Helper lemmas for the collaborative queue -/

theorem mem_sortQueue {x : Song} {l : List Song} :
    x ∈ SongQueue.sortQueue l ↔ x ∈ l :=
  (List.perm_insertionSort songLE l).mem_iff

theorem sorted_sortQueue (l : List Song) :
    List.Sorted songLE (SongQueue.sortQueue l) :=
  List.sorted_insertionSort songLE l

theorem vote_out_of_range {songs : List Song} {i : Int} {uid : Nat}
    (h : i < 0 ∨ (songs.length : Int) ≤ i) :
    SongQueue.vote songs i uid = Except.error "Invalid song index" := by
  unfold SongQueue.vote
  rw [dif_pos h]

theorem vote_already_voted {songs : List Song} {i : Int} {uid : Nat}
    (h : ¬(i < 0 ∨ (songs.length : Int) ≤ i))
    (hi : i.toNat < songs.length)
    (hv : uid ∈ (songs.get ⟨i.toNat, hi⟩).voters) :
    SongQueue.vote songs i uid = Except.ok (songs, false) := by
  unfold SongQueue.vote
  rw [dif_neg h]
  simp only
  rw [if_pos hv]

theorem vote_success {songs : List Song} {i : Int} {uid : Nat}
    (h : ¬(i < 0 ∨ (songs.length : Int) ≤ i))
    (hi : i.toNat < songs.length)
    (hv : uid ∉ (songs.get ⟨i.toNat, hi⟩).voters) :
    SongQueue.vote songs i uid =
      Except.ok (SongQueue.sortQueue (songs.set i.toNat
        { songs.get ⟨i.toNat, hi⟩ with
            votes := (songs.get ⟨i.toNat, hi⟩).votes + 1,
            voters := (songs.get ⟨i.toNat, hi⟩).voters ++ [uid] }), true) := by
  unfold SongQueue.vote
  rw [dif_neg h]
  simp only
  rw [if_neg hv]

/-- The per-song invariant: no duplicate voters, `votes = |voters|`. -/
def SongInv (s : Song) : Prop :=
  s.voters.Nodup ∧ s.votes = s.voters.length

theorem songInv_new (title url addedBy now : Nat) :
    SongInv (Song.new title url addedBy now) := by
  constructor
  · exact List.nodup_singleton addedBy
  · rfl

theorem songInv_applyOp {songs : List Song}
    (h : ∀ s ∈ songs, SongInv s) (op : QueueOp) :
    ∀ s ∈ applyOp songs op, SongInv s := by
  cases op with
  | add t u uid now =>
    intro s hs
    unfold applyOp SongQueue.addSong at hs
    simp only at hs
    rw [mem_sortQueue] at hs
    rcases List.mem_append.mp hs with h1 | h1
    · exact h s h1
    · rcases List.mem_singleton.mp h1 with rfl
      exact songInv_new t u uid now
  | vote i uid =>
    intro s hs
    simp only [applyOp] at hs
    by_cases hrange : i < 0 ∨ (songs.length : Int) ≤ i
    · rw [vote_out_of_range hrange] at hs
      exact h s hs
    · have hi : i.toNat < songs.length := by omega
      by_cases hv : uid ∈ (songs.get ⟨i.toNat, hi⟩).voters
      · rw [vote_already_voted hrange hi hv] at hs
        exact h s hs
      · rw [vote_success hrange hi hv] at hs
        simp only at hs
        rw [mem_sortQueue] at hs
        rcases List.mem_or_eq_of_mem_set hs with h1 | h1
        · exact h s h1
        · subst h1
          have hold := h _ (songs.get_mem i.toNat hi)
          constructor
          · have hperm := List.perm_append_singleton uid
              (songs.get ⟨i.toNat, hi⟩).voters
            rw [hperm.nodup_iff]
            exact List.Nodup.cons hv hold.1
          · simp only [List.length_append, List.length_singleton]
            exact congrArg (· + 1) hold.2

theorem songInv_applyOps (ops : List QueueOp) :
    ∀ s ∈ applyOps ops, SongInv s := by
  unfold applyOps
  generalize hq : ([] : List Song) = q
  have hbase : ∀ s ∈ q, SongInv s := by
    intro s hs
    rw [← hq] at hs
    cases hs
  clear hq
  induction ops generalizing q with
  | nil => exact hbase
  | cons op rest ih =>
    simp only [List.foldl_cons]
    exact ih (applyOp q op) (songInv_applyOp hbase op)

theorem sorted_applyOp {songs : List Song}
    (h : List.Sorted songLE songs) (op : QueueOp) :
    List.Sorted songLE (applyOp songs op) := by
  cases op with
  | add t u uid now =>
    unfold applyOp SongQueue.addSong
    exact sorted_sortQueue _
  | vote i uid =>
    simp only [applyOp]
    by_cases hrange : i < 0 ∨ (songs.length : Int) ≤ i
    · rw [vote_out_of_range hrange]
      exact h
    · have hi : i.toNat < songs.length := by omega
      by_cases hv : uid ∈ (songs.get ⟨i.toNat, hi⟩).voters
      · rw [vote_already_voted hrange hi hv]
        exact h
      · rw [vote_success hrange hi hv]
        exact sorted_sortQueue _

theorem sorted_applyOps (ops : List QueueOp) :
    List.Sorted songLE (applyOps ops) := by
  unfold applyOps
  generalize hq : ([] : List Song) = q
  have hbase : List.Sorted songLE q := by
    rw [← hq]
    exact List.sorted_nil
  clear hq
  induction ops generalizing q with
  | nil => exact hbase
  | cons op rest ih =>
    simp only [List.foldl_cons]
    exact ih (applyOp q op) (sorted_applyOp hbase op)

/-! ### Claims C1, C2, C8 -/

/-- C1 counterexample: `vote(0, 999)` on the empty queue throws
`'Invalid song index'` (modelled as `Except.error`) instead of returning
`false`, refuting the claim that an out-of-range index makes `vote` return
`false` without throwing. -/
theorem C1_counterexample :
    SongQueue.vote [] 0 999 = Except.error "Invalid song index" := by
  rfl

/-- C1 (amended): `vote(index, userId)` throws an `'Invalid song index'`
error when the index is out of range (`index < 0` or `index ≥ length`);
it returns `false` without throwing when `userId` is already in the
indexed song's voter set; otherwise it increments that song's votes, adds
`userId` to its voters, re-sorts the queue, and returns `true`. -/
theorem C1_vote_spec (songs : List Song) (songIndex : Int) (userId : Nat) :
    ((songIndex < 0 ∨ (songs.length : Int) ≤ songIndex) →
      SongQueue.vote songs songIndex userId =
        Except.error "Invalid song index")
    ∧ (∀ (hi : songIndex.toNat < songs.length), 0 ≤ songIndex →
        (userId ∈ (songs.get ⟨songIndex.toNat, hi⟩).voters →
          SongQueue.vote songs songIndex userId = Except.ok (songs, false))
        ∧ (userId ∉ (songs.get ⟨songIndex.toNat, hi⟩).voters →
            SongQueue.vote songs songIndex userId =
              Except.ok (SongQueue.sortQueue (songs.set songIndex.toNat
                { songs.get ⟨songIndex.toNat, hi⟩ with
                    votes := (songs.get ⟨songIndex.toNat, hi⟩).votes + 1,
                    voters := (songs.get ⟨songIndex.toNat, hi⟩).voters
                      ++ [userId] }), true)
              ∧ List.Sorted songLE
                  (SongQueue.sortQueue (songs.set songIndex.toNat
                    { songs.get ⟨songIndex.toNat, hi⟩ with
                        votes := (songs.get ⟨songIndex.toNat, hi⟩).votes + 1,
                        voters := (songs.get ⟨songIndex.toNat, hi⟩).voters
                          ++ [userId] })))) := by
  constructor
  · intro hrange
    exact vote_out_of_range hrange
  · intro hi hnonneg
    have hrange : ¬(songIndex < 0 ∨ (songs.length : Int) ≤ songIndex) := by
      omega
    constructor
    · intro hv
      exact vote_already_voted hrange hi hv
    · intro hv
      exact ⟨vote_success hrange hi hv, sorted_sortQueue _⟩

/-- C1 witness: on the one-song queue `[Song.new 1 2 3 4]`, voting at
index 0 with a fresh user returns `true` and with the original submitter
returns `false`. -/
theorem C1_vote_spec_witness :
    SongQueue.vote [Song.new 1 2 3 4] 0 5 =
      Except.ok ([{ Song.new 1 2 3 4 with votes := 2, voters := [3, 5] }],
        true)
    ∧ SongQueue.vote [Song.new 1 2 3 4] 0 3 =
      Except.ok ([Song.new 1 2 3 4], false) := by
  have h1 := (C1_vote_spec [Song.new 1 2 3 4] 0 5).2 (by decide) (by decide)
  have h2 := (C1_vote_spec [Song.new 1 2 3 4] 0 3).2 (by decide) (by decide)
  refine ⟨?_, h2.1 (by decide)⟩
  have h3 := (h1.2 (by decide)).1
  rw [h3]
  rfl

/-- C2: after every sequence of `addSong` / `vote` operations from the
empty queue, every song's voter set is duplicate-free and its `votes`
field equals the cardinality of its voter set. -/
theorem C2_vote_invariant (ops : List QueueOp) (s : Song)
    (hs : s ∈ applyOps ops) :
    s.voters.Nodup ∧ s.votes = s.voters.length :=
  songInv_applyOps ops s hs

/-- C2 witness: after adding one song and voting for it, the resulting
song has voter list `[3, 5]` (no duplicates) and 2 votes. -/
theorem C2_vote_invariant_witness :
    ({ Song.new 1 2 3 4 with votes := 2, voters := [3, 5] } : Song).voters.Nodup
    ∧ ({ Song.new 1 2 3 4 with votes := 2, voters := [3, 5] } : Song).votes =
      ({ Song.new 1 2 3 4 with votes := 2, voters := [3, 5] } : Song).voters.length :=
  C2_vote_invariant [QueueOp.add 1 2 3 4, QueueOp.vote 0 5]
    { Song.new 1 2 3 4 with votes := 2, voters := [3, 5] } (by decide)

/-- C8: after every sequence of operations the queue is ordered by votes
descending with ties broken by `addedAt` ascending (`songLE`); and in the
concrete scenario, adding song A (addedAt 1) then song B (addedAt 2)
yields `[A, B]`, and a subsequent vote for B yields `[B, A]`. -/
theorem C8_queue_ordering :
    (∀ ops : List QueueOp, List.Sorted songLE (applyOps ops))
    ∧ applyOps [QueueOp.add 1 10 100 1, QueueOp.add 2 20 200 2] =
        [Song.new 1 10 100 1, Song.new 2 20 200 2]
    ∧ applyOps [QueueOp.add 1 10 100 1, QueueOp.add 2 20 200 2,
        QueueOp.vote 1 300] =
        [{ Song.new 2 20 200 2 with votes := 2, voters := [200, 300] },
          Song.new 1 10 100 1] := by
  refine ⟨sorted_applyOps, ?_, ?_⟩
  · decide
  · decide

/-! ## Auth guard (`AuthManager.js`)

`executeWithTokenRefresh(operation)` — `try { return await operation() }
catch (error) { if (error.statusCode === 401) { await
this.refreshAccessToken(); return await operation(); } throw error; }`.

The operation is modelled as a function from its invocation number to an
outcome; `refreshAccessToken` (which rethrows its own failure) is a single
outcome.  The embedding also returns how many refreshes were performed and
how many times the operation was invoked. -/

structure SpotifyError where
  statusCode : Option Nat
  message : Nat
deriving DecidableEq

def AuthManager.executeWithTokenRefresh {α : Type}
    (operation : Nat → Except SpotifyError α)
    (refresh : Except SpotifyError Unit) :
    Except SpotifyError α × Nat × Nat :=
  match operation 0 with
  | Except.ok v => (Except.ok v, 0, 1)
  | Except.error e =>
    if e.statusCode = some 401 then
      match refresh with
      | Except.ok _ => (operation 1, 1, 2)
      | Except.error re => (Except.error re, 0, 1)
    else (Except.error e, 0, 1)

/-- C4: if the operation succeeds its result is returned with zero
refreshes and one invocation; if it fails with status 401 (and the
credential refresh succeeds) exactly one refresh is performed, the
operation is invoked exactly twice, and the retry's outcome — success or
failure — is returned as is; a non-401 failure propagates with zero
refreshes and no retry. -/
theorem C4_executeWithTokenRefresh {α : Type}
    (operation : Nat → Except SpotifyError α)
    (refresh : Except SpotifyError Unit) :
    (∀ v, operation 0 = Except.ok v →
      AuthManager.executeWithTokenRefresh operation refresh =
        (Except.ok v, 0, 1))
    ∧ (∀ e, operation 0 = Except.error e → e.statusCode = some 401 →
        refresh = Except.ok () →
        AuthManager.executeWithTokenRefresh operation refresh =
          (operation 1, 1, 2))
    ∧ (∀ e, operation 0 = Except.error e → e.statusCode ≠ some 401 →
        AuthManager.executeWithTokenRefresh operation refresh =
          (Except.error e, 0, 1)) := by
  refine ⟨?_, ?_, ?_⟩
  · intro v hv
    simp only [AuthManager.executeWithTokenRefresh, hv]
  · intro e he h401 hrefresh
    simp only [AuthManager.executeWithTokenRefresh, he, hrefresh]
    rw [if_pos h401]
  · intro e he h401
    simp only [AuthManager.executeWithTokenRefresh, he]
    rw [if_neg h401]

/-- C4 witness: an operation that fails with 401 once and then returns 42
yields success 42 with exactly one refresh and two invocations. -/
theorem C4_executeWithTokenRefresh_witness :
    AuthManager.executeWithTokenRefresh
      (fun n => match n with
        | 0 => Except.error ⟨some 401, 7⟩
        | _ + 1 => Except.ok 42)
      (Except.ok ()) = (Except.ok 42, 1, 2) := by
  have h := (C4_executeWithTokenRefresh
    (fun n => match n with
      | 0 => Except.error ⟨some 401, 7⟩
      | _ + 1 => Except.ok 42)
    (Except.ok ())).2.1 ⟨some 401, 7⟩ rfl rfl rfl
  rw [h]

/-! ## Operation queue (`QueueManager.js`)

Category classification is case-sensitive substring matching of the
free-form description against fixed keyword lists; descriptions are
modelled as `List Char`. -/

def QueueManager.criticalOperations : List (List Char) :=
  ["play".toList, "switchPlaylist".toList]

def QueueManager.longRunningOperations : List (List Char) :=
  ["getAllLikedSongs".toList, "populateNewPlaylist".toList]

def QueueManager.veryLongRunningOperations : List (List Char) :=
  ["addMultipleRandomSongsToNewPlaylist".toList]

/-- JavaScript `description.includes(op)`: a case-sensitive contiguous
substring test. -/
def jsIncludes (description op : List Char) : Bool :=
  decide (op <:+: description)

/-- `this.criticalOperations.some(op => description.includes(op))`. -/
def QueueManager.isCriticalOperation (description : List Char) : Bool :=
  QueueManager.criticalOperations.any (fun op => jsIncludes description op)

/-- `QueueManager.getTimeoutForOperation(description)`. -/
def QueueManager.getTimeoutForOperation (description : List Char) : Nat :=
  if QueueManager.isCriticalOperation description then 5000
  else if QueueManager.veryLongRunningOperations.any
      (fun op => jsIncludes description op) then 60000
  else if QueueManager.longRunningOperations.any
      (fun op => jsIncludes description op) then 30000
  else 10000

/-- The description used by `PlaylistManager.addToPlaylists(title, url)`:
`` `addToPlaylists-${title}` ``. -/
def PlaylistManager.addToPlaylistsDescription (title : List Char) :
    List Char :=
  "addToPlaylists-".toList ++ title

/-- How a submitted task behaves when raced against its timeout:
it resolves with a value (possibly `null`, modelled as `none`), rejects
with an error message, or is still pending when the timer fires. -/
inductive Outcome (V : Type) where
  | resolved (value : Option V)
  | rejected (message : List Char)
  | pending
deriving DecidableEq

def criticalTimeoutMessage (description : List Char) : List Char :=
  "Critical operation (".toList ++ description ++ ") timed out".toList

def operationTimeoutMessage (description : List Char) : List Char :=
  "Operation (".toList ++ description ++ ") timed out".toList

/-- `Promise.race([operation(), timeoutPromise])`: the task's settlement,
or a rejection with the timeout message when the task is still pending. -/
def raceWithTimeout {V : Type} (task : Outcome V)
    (timeoutMessage : List Char) : Except (List Char) (Option V) :=
  match task with
  | Outcome.resolved v => Except.ok v
  | Outcome.rejected e => Except.error e
  | Outcome.pending => Except.error timeoutMessage

/-- What the caller of `queueOperation` receives: either the task's value
or the structured failure object `{ success: false, error }`. -/
inductive CallerResult (V : Type) where
  | value (v : Option V)
  | failure (error : List Char)
deriving DecidableEq

/-- The critical bypass lane of `queueOperation`: `try { return await
Promise.race(...) } catch (error) { return { success: false, error } }`.
The settlement is `Except.ok` in all cases — the catch swallows every
rejection. -/
def QueueManager.criticalSettle {V : Type} (task : Outcome V)
    (description : List Char) : Except (List Char) (CallerResult V) :=
  match raceWithTimeout task (criticalTimeoutMessage description) with
  | Except.ok v => Except.ok (CallerResult.value v)
  | Except.error e => Except.ok (CallerResult.failure e)

/-- How `processQueue` settles a queued item's promise:
`resolve(result || { success: false, error: 'No result returned' })` on
success of the race, `reject(error)` on a throw or timeout. -/
def QueueManager.processItemSettle {V : Type} (task : Outcome V)
    (description : List Char) : Except (List Char) (CallerResult V) :=
  match raceWithTimeout task (operationTimeoutMessage description) with
  | Except.ok (some v) => Except.ok (CallerResult.value (some v))
  | Except.ok none =>
    Except.ok (CallerResult.failure "No result returned".toList)
  | Except.error e => Except.error e

/-- The queued lane of `queueOperation`: the promise resolved/rejected by
the worker, followed by the trailing
`.catch(error => ({ success: false, error }))`. -/
def QueueManager.queuedSettle {V : Type} (task : Outcome V)
    (description : List Char) : Except (List Char) (CallerResult V) :=
  match QueueManager.processItemSettle task description with
  | Except.ok r => Except.ok r
  | Except.error e => Except.ok (CallerResult.failure e)

/-- `QueueManager.queueOperation(operation, description, isPriority)` —
the settlement of the promise returned to the caller.  `isPriority` only
affects queue ordering, never the settlement of the operation itself. -/
def QueueManager.queueOperationSettle {V : Type} (task : Outcome V)
    (description : List Char) (isPriority : Bool) :
    Except (List Char) (CallerResult V) :=
  if QueueManager.isCriticalOperation description then
    QueueManager.criticalSettle task description
  else
    QueueManager.queuedSettle task description

/-- C9: the promise returned by `queueOperation` never rejects — for every
task behaviour it settles `ok`; a rejected task resolves the caller with
the structured failure carrying the task's error, and a timed-out task
resolves the caller with the structured failure carrying the lane's
timeout message. -/
theorem C9_queueOperation_never_rejects {V : Type} :
    (∀ (task : Outcome V) (description : List Char) (isPriority : Bool),
      ∃ r, QueueManager.queueOperationSettle task description isPriority =
        Except.ok r)
    ∧ (∀ (e : List Char) (description : List Char) (isPriority : Bool),
        QueueManager.queueOperationSettle (Outcome.rejected e : Outcome V)
          description isPriority = Except.ok (CallerResult.failure e))
    ∧ (∀ (description : List Char) (isPriority : Bool),
        QueueManager.queueOperationSettle (Outcome.pending : Outcome V)
          description isPriority =
          Except.ok (CallerResult.failure
            (if QueueManager.isCriticalOperation description then
              criticalTimeoutMessage description
            else operationTimeoutMessage description))) := by
  refine ⟨?_, ?_, ?_⟩
  · intro task description isPriority
    unfold QueueManager.queueOperationSettle
    by_cases hc : QueueManager.isCriticalOperation description = true
    · rw [if_pos hc]
      cases task with
      | resolved v => exact ⟨CallerResult.value v, rfl⟩
      | rejected e => exact ⟨CallerResult.failure e, rfl⟩
      | pending =>
        exact ⟨CallerResult.failure (criticalTimeoutMessage description), rfl⟩
    · rw [if_neg hc]
      cases task with
      | resolved v =>
        cases v with
        | none => exact ⟨CallerResult.failure "No result returned".toList, rfl⟩
        | some x => exact ⟨CallerResult.value (some x), rfl⟩
      | rejected e => exact ⟨CallerResult.failure e, rfl⟩
      | pending =>
        exact ⟨CallerResult.failure (operationTimeoutMessage description), rfl⟩
  · intro e description isPriority
    unfold QueueManager.queueOperationSettle
    by_cases hc : QueueManager.isCriticalOperation description = true
    · rw [if_pos hc]
      rfl
    · rw [if_neg hc]
      rfl
  · intro description isPriority
    unfold QueueManager.queueOperationSettle
    by_cases hc : QueueManager.isCriticalOperation description = true
    · rw [if_pos hc, if_pos hc]
      rfl
    · rw [if_neg hc, if_neg hc]
      rfl

/-- C10: classification is case-sensitive substring matching, so any title
containing lowercase `play` makes `addToPlaylists-${title}` classify as
critical: the operation bypasses the serializing queue (it settles through
the critical lane) and runs under the 5000 ms critical timeout instead of
the 10000 ms default. -/
theorem C10_play_title_bypasses_queue (title : List Char)
    (h : "play".toList <:+: title) :
    QueueManager.isCriticalOperation
      (PlaylistManager.addToPlaylistsDescription title) = true
    ∧ QueueManager.getTimeoutForOperation
        (PlaylistManager.addToPlaylistsDescription title) = 5000
    ∧ (∀ (V : Type) (task : Outcome V) (isPriority : Bool),
        QueueManager.queueOperationSettle task
            (PlaylistManager.addToPlaylistsDescription title) isPriority =
          QueueManager.criticalSettle task
            (PlaylistManager.addToPlaylistsDescription title)) := by
  have hinf : "play".toList <:+:
      PlaylistManager.addToPlaylistsDescription title := by
    obtain ⟨s, t, rfl⟩ := h
    exact ⟨"addToPlaylists-".toList ++ s, t, by
      simp [PlaylistManager.addToPlaylistsDescription, List.append_assoc]⟩
  have hcrit : QueueManager.isCriticalOperation
      (PlaylistManager.addToPlaylistsDescription title) = true := by
    unfold QueueManager.isCriticalOperation QueueManager.criticalOperations
    simp only [List.any_cons, List.any_nil, Bool.or_eq_true]
    left
    unfold jsIncludes
    exact decide_eq_true hinf
  refine ⟨hcrit, ?_, ?_⟩
  · unfold QueueManager.getTimeoutForOperation
    rw [if_pos hcrit]
  · intro V task isPriority
    unfold QueueManager.queueOperationSettle
    rw [if_pos hcrit]

/-- C10 witness: the title `Coldplay` contains `play`, so
`addToPlaylists-Coldplay` is classified critical with the 5000 ms
timeout. -/
theorem C10_play_title_bypasses_queue_witness :
    QueueManager.isCriticalOperation
      (PlaylistManager.addToPlaylistsDescription "Coldplay".toList) = true
    ∧ QueueManager.getTimeoutForOperation
        (PlaylistManager.addToPlaylistsDescription "Coldplay".toList) =
      5000 :=
  ⟨(C10_play_title_bypasses_queue "Coldplay".toList (by decide)).1,
    (C10_play_title_bypasses_queue "Coldplay".toList (by decide)).2.1⟩

/-! ### Worker exclusion (`queueOperation` / `processQueue`)

Event-loop interleavings of the queue are modelled as a transition system.
A state holds `operationQueue` (pending item ids), the `isProcessingQueue`
flag, and the list of live `processQueue` coroutines (`workers`), each
either between operations (`none`) or awaiting one operation (`some n`).
`queueOperation` pushes the item and, synchronously, starts a worker only
when `isProcessingQueue` is `false` (the guard at the top of
`processQueue` then sets the flag, with no `await` in between, so the two
are one atomic step); a worker picks the head of the list, awaits it,
and clears the flag and dies only when the list is empty. -/

structure QueueManagerState where
  operationQueue : List Nat
  isProcessingQueue : Bool
  workers : List (Option Nat)
deriving DecidableEq

def QueueManager.initialState : QueueManagerState :=
  { operationQueue := [], isProcessingQueue := false, workers := [] }

/-- `unshift` for priority items, `push` otherwise. -/
def pushItem (n : Nat) (isPriority : Bool) (q : List Nat) : List Nat :=
  if isPriority then n :: q else q ++ [n]

inductive QStep : QueueManagerState → QueueManagerState → Prop where
  | enqueue_start (n : Nat) (prio : Bool) (q : List Nat)
      (ws : List (Option Nat)) :
      QStep ⟨q, false, ws⟩ ⟨pushItem n prio q, true, ws ++ [none]⟩
  | enqueue_running (n : Nat) (prio : Bool) (q : List Nat)
      (ws : List (Option Nat)) :
      QStep ⟨q, true, ws⟩ ⟨pushItem n prio q, true, ws⟩
  | pick (n : Nat) (q : List Nat) (b : Bool) (w1 w2 : List (Option Nat)) :
      QStep ⟨n :: q, b, w1 ++ none :: w2⟩ ⟨q, b, w1 ++ some n :: w2⟩
  | finish (n : Nat) (q : List Nat) (b : Bool) (w1 w2 : List (Option Nat)) :
      QStep ⟨q, b, w1 ++ some n :: w2⟩ ⟨q, b, w1 ++ none :: w2⟩
  | exitLoop (b : Bool) (w1 w2 : List (Option Nat)) :
      QStep ⟨[], b, w1 ++ none :: w2⟩ ⟨[], false, w1 ++ w2⟩

/-- States reachable from the initial state. -/
def QueueManager.Reachable (s : QueueManagerState) : Prop :=
  Relation.ReflTransGen QStep QueueManager.initialState s

/-- The non-critical operations currently executing against the remote
service: one per worker that is awaiting an operation. -/
def QueueManagerState.executing (s : QueueManagerState) : List Nat :=
  s.workers.filterMap id

/-- The inductive invariant: at most one worker coroutine is ever live,
and none is live while `isProcessingQueue` is `false`. -/
def QInv (s : QueueManagerState) : Prop :=
  s.workers.length ≤ 1 ∧ (s.isProcessingQueue = false → s.workers = [])

theorem qInv_step {s s' : QueueManagerState} (h : QStep s s')
    (hinv : QInv s) : QInv s' := by
  cases h with
  | enqueue_start n prio q ws =>
    have hws : ws = [] := hinv.2 rfl
    subst hws
    exact ⟨by simp, by simp⟩
  | enqueue_running n prio q ws =>
    exact ⟨hinv.1, by simp⟩
  | pick n q b w1 w2 =>
    refine ⟨?_, ?_⟩
    · have := hinv.1
      simp only [List.length_append, List.length_cons] at this ⊢
      omega
    · intro hb
      have := hinv.2 hb
      simp at this
  | finish n q b w1 w2 =>
    refine ⟨?_, ?_⟩
    · have := hinv.1
      simp only [List.length_append, List.length_cons] at this ⊢
      omega
    · intro hb
      have := hinv.2 hb
      simp at this
  | exitLoop b w1 w2 =>
    have h1 := hinv.1
    simp only [List.length_append, List.length_cons] at h1
    have hw1 : w1 = [] := by
      rw [← List.length_eq_zero]
      omega
    have hw2 : w2 = [] := by
      rw [← List.length_eq_zero]
      omega
    subst hw1
    subst hw2
    exact ⟨by simp, by simp⟩

theorem qInv_reachable {s : QueueManagerState}
    (h : QueueManager.Reachable s) : QInv s := by
  induction h with
  | refl => exact ⟨by simp [QueueManager.initialState],
      fun _ => by simp [QueueManager.initialState]⟩
  | tail hstep ih ih2 => exact qInv_step ih ih2

/-- C5: in every reachable state of the operation queue, at most one
non-critical operation is executing against the remote service — a second
one can only be picked by a worker after the current one has resolved,
rejected, or timed out (`finish`), because at most one worker coroutine
is ever live. -/
theorem C5_at_most_one_executing (s : QueueManagerState)
    (h : QueueManager.Reachable s) :
    s.executing.length ≤ 1 := by
  have hinv := qInv_reachable h
  calc s.executing.length ≤ s.workers.length :=
        List.length_filterMap_le id s.workers
    _ ≤ 1 := hinv.1

/-- C5 witness: the initial state is reachable and has no executing
operation. -/
theorem C5_at_most_one_executing_witness :
    QueueManager.initialState.executing.length ≤ 1 :=
  C5_at_most_one_executing QueueManager.initialState
    Relation.ReflTransGen.refl

/-! ## Playlist reconciler (`spotifyAuth.js`, class `PlaylistManager`)

The overflow ("New Playlist") maintenance.  The remote playlist is its
ordered track list (`List Nat`, position 0 first); the shuffled liked-songs
sample is passed as a parameter (the result of `shuffleArray` on the
library fetch).

`populateNewPlaylist(playlistId)` — clears every current track in batches,
then, unless the library is empty (in which case it returns `null` with
the playlist left empty), adds the first `Math.min(5, length)` tracks of
the shuffled library in one batch. -/

def PlaylistManager.populateNewPlaylist
    (currentTracks shuffledSavedTracks : List Nat) : List Nat :=
  if shuffledSavedTracks.length = 0 then []
  else shuffledSavedTracks.take (min 5 shuffledSavedTracks.length)

/-- `ensureNewPlaylistHasFiveSongs()` (the playlist already existing) —
`currentCount === 0`: repopulate via `populateNewPlaylist`;
`currentCount < 5`: return unchanged if the library is empty, otherwise
append the first `5 - currentCount` tracks of a fresh shuffled sample;
`currentCount > 5`: remove `items.slice(5)`, keeping the first five
positions; otherwise no mutation. -/
def PlaylistManager.ensureNewPlaylistHasFiveSongs
    (playlistTracks shuffledLikedSongs : List Nat) : List Nat :=
  let currentCount := playlistTracks.length
  let targetCount := 5
  if currentCount = 0 then
    PlaylistManager.populateNewPlaylist playlistTracks shuffledLikedSongs
  else if currentCount < targetCount then
    if shuffledLikedSongs.length = 0 then playlistTracks
    else playlistTracks ++ shuffledLikedSongs.take (targetCount - currentCount)
  else if currentCount > targetCount then
    playlistTracks.take targetCount
  else playlistTracks

/-- C6 counterexample: with the 7-track overflow playlist
`[10, ..., 16]`, `ensureNewPlaylistHasFiveSongs` keeps the first five
positions `[10, 11, 12, 13, 14]` — it removes the two tracks at the
highest positions, not the two oldest-by-position (which would leave
`[12, 13, 14, 15, 16]`). -/
theorem C6_counterexample :
    PlaylistManager.ensureNewPlaylistHasFiveSongs
        [10, 11, 12, 13, 14, 15, 16] [] = [10, 11, 12, 13, 14]
    ∧ PlaylistManager.ensureNewPlaylistHasFiveSongs
        [10, 11, 12, 13, 14, 15, 16] [] ≠ [12, 13, 14, 15, 16] := by
  decide

/-- C6 (amended): `ensureNewPlaylistHasFiveSongs` performs exactly this
case split on the membership count versus the target 5 — count 0:
repopulate with the first five tracks of the shuffled library sample;
0 < count < 5: no mutation when the library sample is empty, otherwise
append exactly the first `5 - count` tracks of a fresh sample; count > 5:
remove exactly the `count - 5` tracks at positions ≥ 5 (the
newest-by-position), keeping the first five; count = 5: no mutation.  In
particular, with 7 tracks present it removes exactly 2, leaving the first
5. -/
theorem C6_ensure_case_split (playlistTracks shuffledLikedSongs : List Nat) :
    (playlistTracks.length = 0 →
      PlaylistManager.ensureNewPlaylistHasFiveSongs playlistTracks
          shuffledLikedSongs =
        shuffledLikedSongs.take 5)
    ∧ (0 < playlistTracks.length → playlistTracks.length < 5 →
        (shuffledLikedSongs = [] →
          PlaylistManager.ensureNewPlaylistHasFiveSongs playlistTracks
            shuffledLikedSongs = playlistTracks)
        ∧ (shuffledLikedSongs ≠ [] →
            PlaylistManager.ensureNewPlaylistHasFiveSongs playlistTracks
                shuffledLikedSongs =
              playlistTracks ++
                shuffledLikedSongs.take (5 - playlistTracks.length)))
    ∧ (5 < playlistTracks.length →
        PlaylistManager.ensureNewPlaylistHasFiveSongs playlistTracks
            shuffledLikedSongs = playlistTracks.take 5
        ∧ (PlaylistManager.ensureNewPlaylistHasFiveSongs playlistTracks
            shuffledLikedSongs).length = 5)
    ∧ (playlistTracks.length = 5 →
        PlaylistManager.ensureNewPlaylistHasFiveSongs playlistTracks
          shuffledLikedSongs = playlistTracks)
    ∧ (playlistTracks.length = 7 →
        PlaylistManager.ensureNewPlaylistHasFiveSongs playlistTracks
            shuffledLikedSongs = playlistTracks.take 5
        ∧ (playlistTracks.take 5).length = 5) := by
  refine ⟨?_, ?_, ?_, ?_, ?_⟩
  · intro h0
    unfold PlaylistManager.ensureNewPlaylistHasFiveSongs
      PlaylistManager.populateNewPlaylist
    simp only [if_pos h0]
    by_cases hl : shuffledLikedSongs.length = 0
    · rw [if_pos hl]
      have : shuffledLikedSongs = [] := List.length_eq_zero.mp hl
      subst this
      rfl
    · rw [if_neg hl]
      rcases le_total 5 shuffledLikedSongs.length with h5 | h5
      · rw [min_eq_left h5]
      · rw [min_eq_right h5, List.take_length,
          List.take_of_length_le h5]
  · intro hpos hlt
    constructor
    · intro hnil
      subst hnil
      unfold PlaylistManager.ensureNewPlaylistHasFiveSongs
      simp only [if_neg (by omega : ¬playlistTracks.length = 0),
        if_pos hlt, List.length_nil]
      rfl
    · intro hne
      have hl : ¬shuffledLikedSongs.length = 0 := by
        intro h
        exact hne (List.length_eq_zero.mp h)
      unfold PlaylistManager.ensureNewPlaylistHasFiveSongs
      simp only [if_neg (by omega : ¬playlistTracks.length = 0),
        if_pos hlt, if_neg hl]
  · intro hgt
    have heq : PlaylistManager.ensureNewPlaylistHasFiveSongs playlistTracks
        shuffledLikedSongs = playlistTracks.take 5 := by
      unfold PlaylistManager.ensureNewPlaylistHasFiveSongs
      simp only [if_neg (by omega : ¬playlistTracks.length = 0),
        if_neg (by omega : ¬playlistTracks.length < 5), if_pos hgt]
    refine ⟨heq, ?_⟩
    rw [heq, List.length_take]
    omega
  · intro h5
    unfold PlaylistManager.ensureNewPlaylistHasFiveSongs
    simp only [if_neg (by omega : ¬playlistTracks.length = 0),
      if_neg (by omega : ¬playlistTracks.length < 5),
      if_neg (by omega : ¬5 < playlistTracks.length)]
  · intro h7
    have heq : PlaylistManager.ensureNewPlaylistHasFiveSongs playlistTracks
        shuffledLikedSongs = playlistTracks.take 5 := by
      unfold PlaylistManager.ensureNewPlaylistHasFiveSongs
      simp only [if_neg (by omega : ¬playlistTracks.length = 0),
        if_neg (by omega : ¬playlistTracks.length < 5),
        if_pos (by omega : 5 < playlistTracks.length)]
    refine ⟨heq, ?_⟩
    rw [List.length_take]
    omega

/-- C6 witness: the five cases at concrete playlists — empty with a 6-song
sample, 3 tracks with sample `[40]` and with `[]`, 7 tracks, and exactly
5 tracks. -/
theorem C6_ensure_case_split_witness :
    PlaylistManager.ensureNewPlaylistHasFiveSongs []
        [20, 21, 22, 23, 24, 25] = [20, 21, 22, 23, 24]
    ∧ PlaylistManager.ensureNewPlaylistHasFiveSongs [1, 2, 3] [40] =
        [1, 2, 3, 40]
    ∧ PlaylistManager.ensureNewPlaylistHasFiveSongs [1, 2, 3] [] = [1, 2, 3]
    ∧ PlaylistManager.ensureNewPlaylistHasFiveSongs
        [10, 11, 12, 13, 14, 15, 16] [40] = [10, 11, 12, 13, 14]
    ∧ PlaylistManager.ensureNewPlaylistHasFiveSongs [1, 2, 3, 4, 5] [40] =
        [1, 2, 3, 4, 5] := by
  refine ⟨?_, ?_, ?_, ?_, ?_⟩
  · have h := (C6_ensure_case_split [] [20, 21, 22, 23, 24, 25]).1 rfl
    rw [h]
    rfl
  · have h := (((C6_ensure_case_split [1, 2, 3] [40]).2.1 (by decide)
      (by decide)).2 (by decide))
    rw [h]
    rfl
  · exact ((C6_ensure_case_split [1, 2, 3] []).2.1 (by decide)
      (by decide)).1 rfl
  · have h := ((C6_ensure_case_split [10, 11, 12, 13, 14, 15, 16]
      [40]).2.2.1 (by decide)).1
    rw [h]
    rfl
  · exact (C6_ensure_case_split [1, 2, 3, 4, 5] [40]).2.2.2.1 rfl

/-- C7 counterexample: with an empty overflow playlist and a 3-track
library, the first call leaves `[7, 8, 9]` and a second call (same
library, no intervening mutation) appends two more samples, giving
`[7, 8, 9, 7, 8]` — so `ensureNewPlaylistHasFiveSongs` is not idempotent
when the library holds fewer than 5 tracks. -/
theorem C7_counterexample :
    PlaylistManager.ensureNewPlaylistHasFiveSongs
        (PlaylistManager.ensureNewPlaylistHasFiveSongs [] [7, 8, 9])
        [7, 8, 9] = [7, 8, 9, 7, 8]
    ∧ PlaylistManager.ensureNewPlaylistHasFiveSongs
        (PlaylistManager.ensureNewPlaylistHasFiveSongs [] [7, 8, 9])
        [7, 8, 9] ≠
      PlaylistManager.ensureNewPlaylistHasFiveSongs [] [7, 8, 9] := by
  decide

theorem ensure_length_five {playlistTracks lib : List Nat}
    (h5 : 5 ≤ lib.length) :
    (PlaylistManager.ensureNewPlaylistHasFiveSongs playlistTracks
      lib).length = 5 := by
  unfold PlaylistManager.ensureNewPlaylistHasFiveSongs
    PlaylistManager.populateNewPlaylist
  by_cases h0 : playlistTracks.length = 0
  · simp only [if_pos h0, if_neg (by omega : ¬lib.length = 0),
      List.length_take]
    omega
  · simp only [if_neg h0]
    by_cases hlt : playlistTracks.length < 5
    · simp only [if_pos hlt, if_neg (by omega : ¬lib.length = 0),
        List.length_append, List.length_take]
      omega
    · by_cases hgt : 5 < playlistTracks.length
      · simp only [if_neg hlt, if_pos hgt, List.length_take]
        omega
      · simp only [if_neg hlt, if_neg hgt]
        omega

theorem ensure_of_length_five {playlistTracks lib : List Nat}
    (h : playlistTracks.length = 5) :
    PlaylistManager.ensureNewPlaylistHasFiveSongs playlistTracks lib =
      playlistTracks := by
  unfold PlaylistManager.ensureNewPlaylistHasFiveSongs
  simp only [if_neg (by omega : ¬playlistTracks.length = 0),
    if_neg (by omega : ¬playlistTracks.length < 5),
    if_neg (by omega : ¬5 < playlistTracks.length)]

/-- C7 (amended): `ensureNewPlaylistHasFiveSongs` is idempotent whenever
the shuffled library sample holds at least 5 tracks: a second call — with
any reshuffle of the same (unmutated) library — returns the first call's
membership unchanged.  (With a smaller non-empty library the first call
can leave fewer than 5 tracks and a second call appends further samples;
see the counterexample.) -/
theorem C7_idempotent_with_large_library
    (playlistTracks lib1 lib2 : List Nat)
    (h5 : 5 ≤ lib1.length) (hperm : lib2.Perm lib1) :
    PlaylistManager.ensureNewPlaylistHasFiveSongs
        (PlaylistManager.ensureNewPlaylistHasFiveSongs playlistTracks lib1)
        lib2 =
      PlaylistManager.ensureNewPlaylistHasFiveSongs playlistTracks lib1 :=
  ensure_of_length_five (ensure_length_five h5)

/-- C7 witness: with playlist `[1, 2, 3]` and the 5-track library
`[4, 5, 6, 7, 8]`, a second call on a reshuffle changes nothing. -/
theorem C7_idempotent_with_large_library_witness :
    PlaylistManager.ensureNewPlaylistHasFiveSongs
        (PlaylistManager.ensureNewPlaylistHasFiveSongs [1, 2, 3]
          [4, 5, 6, 7, 8]) [8, 7, 6, 5, 4] =
      PlaylistManager.ensureNewPlaylistHasFiveSongs [1, 2, 3]
        [4, 5, 6, 7, 8] :=
  C7_idempotent_with_large_library [1, 2, 3] [4, 5, 6, 7, 8] [8, 7, 6, 5, 4]
    (by decide) (by decide)

/-! ## Playback watcher (`QueueDisplay.js`, class `PlaybackManager`)

`getCurrentlyPlaying()` submits its fetch through
`queueManager.queueOperation(..., 'getCurrentlyPlaying')`; the inner
function resolves with a track object, or with `null` when nothing is
playing (and also on an internal error).  The description
`getCurrentlyPlaying` matches no critical keyword (no lowercase `play`
substring), so the task goes through the queued lane, where the worker
resolves `result || { success: false, error: 'No result returned' }`:
a `null` inner result is delivered to `checkCurrentlyPlaying` as a
**truthy** failure object, and a timeout likewise arrives as a truthy
failure object via the trailing `.catch`.  Reading `.id` off a failure
object yields `undefined`. -/

structure Track where
  id : Nat
  name : Nat
deriving DecidableEq

/-- A JavaScript value held in `this.currentlyPlaying` or received as
`currentTrack`: a real track object, or the structured failure object
(whose `id` and `artists` properties are `undefined`). -/
inductive PolledValue where
  | track (t : Track)
  | failureObject (error : List Char)
deriving DecidableEq

/-- Reading the `id` property: `undefined` (here `none`) on a failure
object.  JavaScript `!==` on two `undefined` ids is `false`, which the
`Option Nat` equality mirrors. -/
def PolledValue.id : PolledValue → Option Nat
  | PolledValue.track t => some t.id
  | PolledValue.failureObject _ => none

/-- How a settled `queueOperation` promise reads as the awaited
`currentTrack` value: a `null` value stays `null` (falsy, `none`); tracks
and failure objects are truthy. -/
def PlaybackManager.deliver (r : CallerResult Track) : Option PolledValue :=
  match r with
  | CallerResult.value (some t) => some (PolledValue.track t)
  | CallerResult.value none => none
  | CallerResult.failure e => some (PolledValue.failureObject e)

def PlaybackManager.getCurrentlyPlayingDescription : List Char :=
  "getCurrentlyPlaying".toList

/-- What one poll delivers to `checkCurrentlyPlaying`, as a function of
the inner task's behaviour (`Outcome.resolved none` = nothing playing):
the settlement of the queued `getCurrentlyPlaying` operation read back as
a JavaScript value.  A rejected settlement would be caught by
`checkCurrentlyPlaying`'s own catch with no state change, observably the
same as the `none` guard; the settlement in fact never rejects (C9). -/
def PlaybackManager.polledValue (task : Outcome Track) : Option PolledValue :=
  match QueueManager.queueOperationSettle task
      PlaybackManager.getCurrentlyPlayingDescription false with
  | Except.ok r => PlaybackManager.deliver r
  | Except.error _ => none

inductive SpotifyEvent where
  | trackChanged (previous current : PolledValue)
  | nowPlaying (current : Track)
deriving DecidableEq

/-- One tick of `checkCurrentlyPlaying` (QueueDisplay.js 563-607), from
the stored snapshot and the delivered `currentTrack` value: the new
snapshot and the events emitted, in order.  `if (!currentTrack) return`
fires only on a falsy value; on a changed `id` the snapshot is replaced
first, then `spotifyTrackChanged(previous, current)` is emitted when a
previous snapshot existed; the following
``console.log(`... ${currentTrack.artists[0].name}`)`` throws a
`TypeError` when `currentTrack` is a failure object (`artists` is
`undefined`), swallowed by the enclosing catch, so `spotifyNowPlaying`
is only emitted for a real track. -/
def PlaybackManager.checkCurrentlyPlaying
    (currentlyPlaying : Option PolledValue)
    (currentTrack : Option PolledValue) :
    Option PolledValue × List SpotifyEvent :=
  match currentTrack with
  | none => (currentlyPlaying, [])
  | some cur =>
    match currentlyPlaying with
    | none =>
      match cur with
      | PolledValue.track t => (some cur, [SpotifyEvent.nowPlaying t])
      | PolledValue.failureObject _ => (some cur, [])
    | some prev =>
      if prev.id = cur.id then (currentlyPlaying, [])
      else
        match cur with
        | PolledValue.track t =>
          (some cur, [SpotifyEvent.trackChanged prev cur,
            SpotifyEvent.nowPlaying t])
        | PolledValue.failureObject _ =>
          (some cur, [SpotifyEvent.trackChanged prev cur])

/-- Running the watcher over a sequence of poll task behaviours: final
snapshot and concatenated event trace. -/
def PlaybackManager.run (s : Option PolledValue) :
    List (Outcome Track) → Option PolledValue × List SpotifyEvent
  | [] => (s, [])
  | task :: rest =>
    let r := PlaybackManager.checkCurrentlyPlaying s
      (PlaybackManager.polledValue task)
    let next := PlaybackManager.run r.1 rest
    (next.1, r.2 ++ next.2)

/-- C3 refutation: a nothing-playing poll (`Outcome.resolved none`) is
delivered through the queued lane as the truthy failure object
`No result returned`, so after an observed track the watcher **replaces
its snapshot with the failure object and emits a `spotifyTrackChanged`
event** — not zero events with an unchanged snapshot.  Concretely, from
an empty snapshot, polling track `⟨1, 2⟩` and then "nothing playing"
emits `nowPlaying` followed by `trackChanged(track, failureObject)`. -/
theorem C3_nothing_playing_emits :
    PlaybackManager.polledValue (Outcome.resolved none) =
      some (PolledValue.failureObject "No result returned".toList)
    ∧ PlaybackManager.run none
        [Outcome.resolved (some ⟨1, 2⟩), Outcome.resolved none] =
      (some (PolledValue.failureObject "No result returned".toList),
        [SpotifyEvent.nowPlaying ⟨1, 2⟩,
          SpotifyEvent.trackChanged (PolledValue.track ⟨1, 2⟩)
            (PolledValue.failureObject "No result returned".toList)]) := by
  constructor
  · decide
  · decide
